import Mathlib

/-!
# Verification of the cmf.lumped ensemble result-analysis subsystem

Shallow embedding of `cmflumped/doctools/result.py` (class `BaseResult`)
and of the period-splitting logic of `cmflumped/basemodel.py`
(`BaseModel.objectivefunction`), together with proofs of the specified
properties.

Modelling conventions: Python floats are modelled as exact rationals
(`ℚ`); the run-record table is a list of rows; the file system is a map
from filenames to tables; NumPy boolean masks are lists of `Bool`;
exceptions are modelled with `Option`/`Except`.
-/

namespace CmfLumped

/-! ## Threshold search (`BaseResult.calculate_threshold`) -/

/-- The count `np.sum(np.array(self.data.cols.like1[:]) > threshold)`:
the number of entries of the `like1` column strictly greater than `t`
(NumPy `>` on an array is elementwise; summing the mask counts the
`True` entries). -/
def countAbove (like1 : List ℚ) (t : ℚ) : Nat :=
  (like1.filter (fun x => decide (t < x))).length

/-- The `while` loop of `BaseResult.calculate_threshold`:
`while np.sum(like1 > threshold) < n_min and threshold > -2:
threshold -= 0.05`.  The loop decrements by `1/20` starting from `7/10`
and is guarded by `threshold > -2`, so it runs at most 54 iterations;
`fuel` bounds the recursion and is chosen large enough in
`calculate_threshold` that it is never exhausted.

This version is the exact-rational idealization of the loop: `7/10` and
`1/20` stand for the literals `0.7` and `0.05`, and subtraction is
exact.  It is used only for properties that are independent of the
binary64 representation of the iterates; the bit-accurate IEEE-double
model of the same loop is `thresholdLoopF` below. -/
def thresholdLoop (like1 : List ℚ) (nMin : Nat) : Nat → ℚ → ℚ
  | 0, t => t
  | fuel + 1, t =>
      if countAbove like1 t < nMin ∧ (-2 : ℚ) < t then
        thresholdLoop like1 nMin fuel (t - 1 / 20)
      else t

/-- `BaseResult.calculate_threshold(n_min=30)` in the exact-rational
idealization (see `thresholdLoop`): starts at `threshold = 0.7`, runs
the relaxation loop, then recomputes `n = np.sum(like1 > threshold)` at
the final threshold and returns the pair `(threshold, n)`.  The
bit-accurate IEEE-double model is `calculate_thresholdF` below. -/
def calculate_threshold (like1 : List ℚ) (nMin : Nat := 30) : ℚ × Nat :=
  let threshold := thresholdLoop like1 nMin 100 (7 / 10)
  (threshold, countAbove like1 threshold)

/-! ## Bit-accurate IEEE binary64 model of the threshold search

The Python code iterates `threshold -= 0.05` on IEEE double-precision
floats, so the iterates are **not** the exact values `0.7 - k·0.05`
(e.g. the first decrement gives `0.6499999999999999`, and the floor
exit gives `-2.0000000000000013`).  A finite binary64 value is
represented here by the integer `value · 2^1074` (every finite double
is an integer multiple of `2^-1074`); IEEE comparison of finite
doubles is integer comparison of these representations, and IEEE
subtraction is exact integer subtraction followed by rounding the
result to 53 significant bits, to nearest, ties to even. -/

/-- Number of low-order bits a magnitude (in units of `2^-1074`) has in
excess of 53 significant bits: `0` while `v < 2^53` (such values are
exactly representable: this is the subnormal/small-normal region),
otherwise one more than for `v / 2`.  The recursion steps by 64 bits
while far above the boundary; `fuel = 200` is never exhausted for the
magnitudes that occur here (far below the overflow range). -/
def quantumLenAux : Nat → Nat → Nat → Nat
  | 0, _, acc => acc
  | fuel + 1, v, acc =>
      if v < 9007199254740992 then acc
      else if v < 166153499473114484112975882535043072 then
        quantumLenAux fuel (v / 2) (acc + 1)
      else quantumLenAux fuel (v / 18446744073709551616) (acc + 64)

/-- See `quantumLenAux`. -/
def quantumLen (v : Nat) : Nat := quantumLenAux 200 v 0

/-- Round a magnitude to a multiple of `2^k`, to nearest, ties to
even. -/
def roundMantissa (a k : Nat) : Nat :=
  if k = 0 then a
  else
    let q := a / 2 ^ k
    let r := a % 2 ^ k
    let half := 2 ^ (k - 1)
    let q2 := if half < r then q + 1 else if r < half then q
      else if q % 2 = 0 then q else q + 1
    q2 * 2 ^ k

/-- IEEE round-to-nearest-even of an exact value (in units of
`2^-1074`) to a binary64 value, for the non-overflowing range used
here. -/
def roundFP (v : ℤ) : ℤ :=
  let r := roundMantissa v.natAbs (quantumLen v.natAbs)
  if v < 0 then -(r : ℤ) else (r : ℤ)

/-- IEEE binary64 subtraction: round the exact difference. -/
def floatSub (a b : ℤ) : ℤ := roundFP (a - b)

/-- The double `0.7` (`3152519739159347 · 2^-52`). -/
def f0_7 : ℤ := 3152519739159347 * ((2 ^ 1022 : ℕ) : ℤ)

/-- The double `0.05` (`3602879701896397 · 2^-56`). -/
def f0_05 : ℤ := 3602879701896397 * ((2 ^ 1018 : ℕ) : ℤ)

/-- The double `0.8` (`3602879701896397 · 2^-52`). -/
def f0_8 : ℤ := 3602879701896397 * ((2 ^ 1022 : ℕ) : ℤ)

/-- The exact double `-2.0` (the Python literal `-2` compared against
the float threshold). -/
def fneg2 : ℤ := -((2 ^ 1075 : ℕ) : ℤ)

/-- `np.sum(like1 > threshold)` over double values. -/
def countAboveF (like1 : List ℤ) (t : ℤ) : Nat :=
  (like1.filter (fun x => decide (t < x))).length

/-- The `while` loop of `BaseResult.calculate_threshold` on IEEE
doubles: `while np.sum(like1 > threshold) < n_min and threshold > -2:
threshold -= 0.05`. -/
def thresholdLoopF (like1 : List ℤ) (nMin : Nat) : Nat → ℤ → ℤ
  | 0, t => t
  | fuel + 1, t =>
      if countAboveF like1 t < nMin ∧ fneg2 < t then
        thresholdLoopF like1 nMin fuel (floatSub t f0_05)
      else t

/-- `BaseResult.calculate_threshold(n_min=30)` on IEEE doubles. -/
def calculate_thresholdF (like1 : List ℤ) (nMin : Nat := 30) : ℤ × Nat :=
  let threshold := thresholdLoopF like1 nMin 100 f0_7
  (threshold, countAboveF like1 threshold)

/-- The successive values the float `threshold` variable takes:
`0.7`, then each IEEE subtraction of `0.05`. -/
def subIterF : Nat → ℤ
  | 0 => f0_7
  | k + 1 => floatSub (subIterF k) f0_05

/-- The double values `subIterF 0 … subIterF 54` written out
(`0.7, 0.6499999999999999, …, -2.0000000000000013`). -/
def seqL : List ℤ := [
    3152519739159347 * ((2 ^ 1022 : ℕ) : ℤ),
    1463669878895411 * ((2 ^ 1023 : ℕ) : ℤ),
    2702159776422297 * ((2 ^ 1022 : ℕ) : ℤ),
    619244948763443 * ((2 ^ 1024 : ℕ) : ℤ),
    9007199254740989 * ((2 ^ 1020 : ℕ) : ℤ),
    4053239664633445 * ((2 ^ 1021 : ℕ) : ℤ),
    7205759403792791 * ((2 ^ 1020 : ℕ) : ℤ),
    1576259869579673 * ((2 ^ 1022 : ℕ) : ℤ),
    5404319552844593 * ((2 ^ 1020 : ℕ) : ℤ),
    2251799813685247 * ((2 ^ 1021 : ℕ) : ℤ),
    3602879701896395 * ((2 ^ 1020 : ℕ) : ℤ),
    337769972052787 * ((2 ^ 1023 : ℕ) : ℤ),
    7205759403792787 * ((2 ^ 1018 : ℕ) : ℤ),
    1801439850948195 * ((2 ^ 1019 : ℕ) : ℤ),
    -1924145348608 * ((2 ^ 980 : ℕ) : ℤ),
    -900719925474101 * ((2 ^ 1020 : ℕ) : ℤ),
    -7205759403792801 * ((2 ^ 1018 : ℕ) : ℤ),
    -5404319552844599 * ((2 ^ 1019 : ℕ) : ℤ),
    -3602879701896399 * ((2 ^ 1020 : ℕ) : ℤ),
    -2251799813685249 * ((2 ^ 1021 : ℕ) : ℤ),
    -5404319552844597 * ((2 ^ 1020 : ℕ) : ℤ),
    -788129934789837 * ((2 ^ 1023 : ℕ) : ℤ),
    -7205759403792795 * ((2 ^ 1020 : ℕ) : ℤ),
    -4053239664633447 * ((2 ^ 1021 : ℕ) : ℤ),
    -4503599627370497 * ((2 ^ 1021 : ℕ) : ℤ),
    -4953959590107547 * ((2 ^ 1021 : ℕ) : ℤ),
    -5404319552844597 * ((2 ^ 1021 : ℕ) : ℤ),
    -5854679515581647 * ((2 ^ 1021 : ℕ) : ℤ),
    -6305039478318697 * ((2 ^ 1021 : ℕ) : ℤ),
    -6755399441055747 * ((2 ^ 1021 : ℕ) : ℤ),
    -7205759403792797 * ((2 ^ 1021 : ℕ) : ℤ),
    -7656119366529847 * ((2 ^ 1021 : ℕ) : ℤ),
    -8106479329266897 * ((2 ^ 1021 : ℕ) : ℤ),
    -8556839292003947 * ((2 ^ 1021 : ℕ) : ℤ),
    -2251799813685249 * ((2 ^ 1023 : ℕ) : ℤ),
    -4728779608739023 * ((2 ^ 1022 : ℕ) : ℤ),
    -1238489897526887 * ((2 ^ 1024 : ℕ) : ℤ),
    -5179139571476073 * ((2 ^ 1022 : ℕ) : ℤ),
    -2702159776422299 * ((2 ^ 1023 : ℕ) : ℤ),
    -5629499534213123 * ((2 ^ 1022 : ℕ) : ℤ),
    -365917469723853 * ((2 ^ 1026 : ℕ) : ℤ),
    -6079859496950173 * ((2 ^ 1022 : ℕ) : ℤ),
    -3152519739159349 * ((2 ^ 1023 : ℕ) : ℤ),
    -6530219459687223 * ((2 ^ 1022 : ℕ) : ℤ),
    -1688849860263937 * ((2 ^ 1024 : ℕ) : ℤ),
    -6980579422424273 * ((2 ^ 1022 : ℕ) : ℤ),
    -3602879701896399 * ((2 ^ 1023 : ℕ) : ℤ),
    -7430939385161323 * ((2 ^ 1022 : ℕ) : ℤ),
    -957014920816231 * ((2 ^ 1025 : ℕ) : ℤ),
    -7881299347898373 * ((2 ^ 1022 : ℕ) : ℤ),
    -4053239664633449 * ((2 ^ 1023 : ℕ) : ℤ),
    -8331659310635423 * ((2 ^ 1022 : ℕ) : ℤ),
    -2139209823000987 * ((2 ^ 1024 : ℕ) : ℤ),
    -8782019273372473 * ((2 ^ 1022 : ℕ) : ℤ),
    -4503599627370499 * ((2 ^ 1023 : ℕ) : ℤ)]

/-- Modelled from the spec's words (for comparison with the code): the
count of rows whose primary objective is greater than **or equal to**
the threshold (ties at the boundary included), over double values. -/
def specCountAtLeastF (like1 : List ℤ) (t : ℤ) : Nat :=
  (like1.filter (fun x => decide (t ≤ x))).length

/-! ## Tables, the file system and pruning (`BaseResult.prune_results`) -/

/-- One row of the persisted run-record table: the primary objective
`like1`, one value per calibrated parameter (`par…` columns, in a fixed
order) and the simulated series. -/
structure Row where
  like1 : ℚ
  pars : List ℚ
  simulation : List ℚ
deriving DecidableEq

/-- A persisted table: its schema is represented by the ordered list of
parameter-column names (the remaining columns are fixed), its contents
by the list of rows. -/
structure Table where
  par_names : List String
  rows : List Row
deriving DecidableEq

/-- The `like1` column of a table. -/
def col_like1 (t : Table) : List ℚ := t.rows.map Row.like1

/-- The `par…` column at position `i` of a table. -/
def col_par (t : Table) (i : Nat) : List ℚ :=
  t.rows.map (fun r => r.pars.getD i 0)

/-- PyTables `Table.read_where(condition)`: the rows satisfying the
condition, in their original order. -/
def read_where (t : Table) (cond : Row → Bool) : List Row :=
  t.rows.filter cond

/-- Python `str.replace` on character lists: scan left to right and
replace each non-overlapping occurrence of the (non-empty) pattern
`pat` by `rep`.  `fuel` bounds the recursion; each step consumes at
least one character, so `fuel = length of the text` suffices. -/
def replaceAux (pat rep : List Char) : Nat → List Char → List Char
  | 0, s => s
  | _ + 1, [] => []
  | fuel + 1, c :: cs =>
      if pat ≠ [] ∧ pat.isPrefixOf (c :: cs) then
        rep ++ replaceAux pat rep fuel ((c :: cs).drop pat.length)
      else
        c :: replaceAux pat rep fuel cs

/-- Python `s.replace(pat, rep)` (replaces **every** occurrence of
`pat`, not only a suffix). -/
def pyReplace (s pat rep : String) : String :=
  String.mk (replaceAux pat.data rep.data s.data.length s.data)

/-- The in-memory state of a `BaseResult` object together with the file
system it acts on: `result_filename`, the map from filenames to
persisted tables (standing for the HDF5 files), the open table node
`data`, and the values `threshold` and `n` computed at construction
time. -/
structure ResultState where
  name : String
  result_filename : String
  files : String → Option Table
  data : Table
  threshold : ℚ
  n : Nat

/-- `BaseResult.__init__`: opens `result_filename`, loads the node as
`data` and computes `self.threshold, self.n = self.calculate_threshold()`
from it; `none` when the file does not exist (`tables.open_file`
raises). -/
def BaseResult_init (name result_filename : String)
    (files : String → Option Table) : Option ResultState :=
  (files result_filename).map (fun tab =>
    { name := name
      result_filename := result_filename
      files := files
      data := tab
      threshold := (calculate_threshold (col_like1 tab)).1
      n := (calculate_threshold (col_like1 tab)).2 })

/-- The exception PyTables raises out of
`tables.open_file(new_filename, 'w')` when `new_filename` is already
open in this process (a `ValueError`); the result file itself is open
read-only for the whole lifetime of the `BaseResult` object. -/
inductive PruneError where
  | fileAlreadyOpen
deriving DecidableEq

/-- The successful write path of `BaseResult.prune_results(condition)`:
`new_filename = result_filename.replace('.h5', '.pruned.h5')`; the rows
selected by the condition are read from the open table and appended to
a fresh table (same description) written to `new_filename`; then
`result_filename`, the open file and the open node are redirected to
the new file.  The `threshold` and `n` attributes are not touched.
`prune_results_checked` below adds the failure path taken before any of
this happens when `new_filename` is a file that is already open. -/
def prune_results (s : ResultState) (cond : Row → Bool) : ResultState :=
  let new_filename := pyReplace s.result_filename ".h5" ".pruned.h5"
  let pruned_data := read_where s.data cond
  let newTable : Table := ⟨s.data.par_names, pruned_data⟩
  { s with
    result_filename := new_filename
    files := fun fn => if fn = new_filename then some newTable else s.files fn
    data := newTable }

/-- `BaseResult.prune_results(condition)` with PyTables' already-opened
check: when the derived filename equals the (still open) result file —
which happens exactly when the filename contains no `'.h5'`, so that
`str.replace` leaves it unchanged — `tables.open_file(new_filename,
'w')` raises before anything is written and no file is touched;
otherwise the prune proceeds as `prune_results`. -/
def prune_results_checked (s : ResultState) (cond : Row → Bool) :
    Except PruneError ResultState :=
  if pyReplace s.result_filename ".h5" ".pruned.h5" = s.result_filename then
    .error .fileAlreadyOpen
  else
    .ok (prune_results s cond)

/-! ## Dotty plot (`BaseResult.dotty_plot`) -/

/-- The two exception classes caught around the density estimation in
`dotty_plot`: `np.linalg.linalg.LinAlgError` and `ValueError`. -/
inductive KdeError where
  | linAlgError
  | valueError
deriving DecidableEq

/-- NumPy fancy indexing `col[take]` with a boolean mask: the entries
of `col` at the positions where the mask is `true`, in order. -/
def applyMask (mask : List Bool) (col : List α) : List α :=
  ((mask.zip col).filter (fun p => p.1)).map Prod.snd

/-- `scipy.stats.gaussian_kde(dataset)`: raises `ValueError` on an
empty dataset and `LinAlgError` when the covariance of the dataset is
singular (all values equal); otherwise the fitted kde object, which is
determined by its dataset. -/
def gaussian_kde : List ℚ → Except KdeError (List ℚ)
  | [] => .error .valueError
  | x :: xs =>
      if xs.all (fun y => y == x) then .error .linAlgError
      else .ok (x :: xs)

/-- The boolean mask `self.data.cols.like1[:] > self.threshold` used by
the plotting methods. -/
def behavioralMask (s : ResultState) : List Bool :=
  (col_like1 s.data).map (fun x => decide (s.threshold < x))

/-- `params = self.data.col(f'par...')[take]` for parameter number `i`:
the parameter column restricted to the behavioral runs. -/
def behavioralParams (s : ResultState) (i : Nat) : List ℚ :=
  applyMask (behavioralMask s) (col_par s.data i)

/-- What `dotty_plot` produces: per parameter an optional density curve
(the `try: gaussian_kde … except …: pass` block yields no curve on
failure), and the caption, which reports `self.n` and
`self.threshold`. -/
structure DottyPlot where
  curves : List (Option (List ℚ))
  caption_n : Nat
  caption_threshold : ℚ

/-- `BaseResult.dotty_plot`: for every parameter column, plot the
behavioral parameter values and best-effort estimate a density curve;
a `LinAlgError`/`ValueError` from `gaussian_kde` is caught locally
(`pass`) and only suppresses that curve.  The returned caption reports
the stored `self.n` and `self.threshold`. -/
def dotty_plot (s : ResultState) : DottyPlot :=
  { curves := (List.range s.data.par_names.length).map (fun i =>
      (gaussian_kde (behavioralParams s i)).toOption)
    caption_n := s.n
    caption_threshold := s.threshold }

/-! ## Timeseries plot (`BaseResult.timeseries_plot`) -/

/-- The exceptions that can escape `timeseries_plot`: `np.argmax` on an
empty sequence raises `ValueError`, and `np.percentile` over an empty
selection of rows raises (the spec calls this `InsufficientData`). -/
inductive PlotError where
  | emptyArgmax
  | insufficientData
deriving DecidableEq

/-- Helper for `np.argmax`: fold keeping the index of the first
occurrence of the maximum (later elements replace the current best only
when strictly greater). -/
def argmaxAux : List ℚ → Nat → Nat → ℚ → Nat
  | [], _, best, _ => best
  | x :: xs, i, best, bestv =>
      if bestv < x then argmaxAux xs (i + 1) i x
      else argmaxAux xs (i + 1) best bestv

/-- `np.argmax`: index of the first occurrence of the maximum; `none`
(a raised `ValueError`) on an empty sequence. -/
def argmax : List ℚ → Option Nat
  | [] => none
  | x :: xs => some (argmaxAux xs 1 0 x)

/-- `np.percentile(a, q)` for a one-dimensional sequence, with the
default linear interpolation; `none` (a raised error) on an empty
sequence. -/
def percentile (q : ℚ) (l : List ℚ) : Option ℚ :=
  match l with
  | [] => none
  | _ :: _ =>
      let sorted := l.mergeSort (fun a b => decide (a ≤ b))
      let n := l.length
      let pos : ℚ := q * (n - 1) / 100
      let i := pos.floor.toNat
      let frac : ℚ := pos - i
      let lo := sorted.getD i 0
      let hi := sorted.getD (min (i + 1) (n - 1)) 0
      some (lo + frac * (hi - lo))

/-- `np.percentile(data, q, 0)`: the per-timestep percentile across the
selected rows; `none` (a raised error) when no rows are selected. -/
def percentileAxis0 (q : ℚ) (rows : List (List ℚ)) : Option (List ℚ) :=
  match rows with
  | [] => none
  | r0 :: _ =>
      some ((List.range r0.length).map (fun j =>
        (percentile q (rows.map (fun r => r.getD j 0))).getD 0))

/-- What `timeseries_plot` produces on success: the best run's series,
the 5th/95th percentile band, and the caption reporting the stored
threshold and the number of behavioral runs. -/
structure TimeseriesPlot where
  best : List ℚ
  p5 : List ℚ
  p95 : List ℚ
  caption_threshold : ℚ
  caption_n : Nat

/-- `BaseResult.timeseries_plot`: finds the best run by `np.argmax` on
`like1`, selects the behavioral simulated series with the mask
`nse > self.threshold`, and computes the 5th and 95th percentile per
timestep over the selection.  Errors of the underlying NumPy
operations propagate (there is no handler in the source). -/
def timeseries_plot (s : ResultState) : Except PlotError TimeseriesPlot :=
  let nse := col_like1 s.data
  match argmax nse with
  | none => .error .emptyArgmax
  | some best_run =>
      let best := (s.data.rows.map Row.simulation).getD best_run []
      let take := behavioralMask s
      let data := applyMask take (s.data.rows.map Row.simulation)
      match percentileAxis0 5 data, percentileAxis0 95 data with
      | some p5, some p95 =>
          .ok ⟨best, p5, p95, s.threshold, take.count true⟩
      | _, _ => .error .insufficientData

/-! ## Period splitting (`BaseModel.objectivefunction`) -/

/-- `datetime.date(year, 1, 1).toordinal()` in the proleptic Gregorian
calendar (`datetime` only admits years `1..9999`): the number of days
before January 1 of `year` is
`365*(year-1) + (year-1)/4 - (year-1)/100 + (year-1)/400`, and
ordinals start at 1. -/
def jan1Ordinal (year : Nat) : ℤ :=
  365 * ((year : ℤ) - 1) + ((year - 1) / 4 : Nat) - ((year - 1) / 100 : Nat)
    + ((year - 1) / 400 : Nat) + 1

/-- `getindex(year)` in `BaseModel.objectivefunction`:
`(datetime.datetime(year, 1, 1) - self.data.begin).days`, the array
position of January 1 of `year`; the model start `self.data.begin` is
represented by its ordinal. -/
def getindex (beginOrd : ℤ) (year : Nat) : ℤ :=
  jan1Ordinal year - beginOrd

/-- Normalization of one Python slice bound: negative bounds count from
the end, and bounds are clamped to `[0, len]`. -/
def pyBound (len : Nat) (i : ℤ) : Nat :=
  if i < 0 then (max 0 ((len : ℤ) + i)).toNat else min i.toNat len

/-- Python `l[a:b]`. -/
def pySlice (l : List α) (a b : ℤ) : List α :=
  (l.take (pyBound l.length b)).drop (pyBound l.length a)

/-- Python `l[a:]`. -/
def pySliceFrom (l : List α) (a : ℤ) : List α :=
  l.drop (pyBound l.length a)

/-- The period split performed by `BaseModel.objectivefunction`:
`series[c_start:v_start]` is the calibration slice and
`series[v_start:]` the validation slice, where
`c_start = getindex(calibration_start)` and
`v_start = getindex(validation_start)`. -/
def split (series : List ℚ) (beginOrd : ℤ)
    (calibration_start validation_start : Nat) : List ℚ × List ℚ :=
  let c_start := getindex beginOrd calibration_start
  let v_start := getindex beginOrd validation_start
  (pySlice series c_start v_start, pySliceFrom series v_start)

/-- `BaseModel.objectivefunction(simulation, evaluation)`: slices both
series at the period boundaries and returns
`[nse_c, nse_v, pbias_c, pbias_v]`.  The goodness-of-fit functions
themselves live in the external `spotpy` library and are passed here as
parameters. -/
def objectivefunction (nashsutcliffe pbias : List ℚ → List ℚ → ℚ)
    (beginOrd : ℤ) (calibration_start validation_start : Nat)
    (simulation evaluation : List ℚ) : List ℚ :=
  let e := split evaluation beginOrd calibration_start validation_start
  let s := split simulation beginOrd calibration_start validation_start
  [nashsutcliffe e.1 s.1, nashsutcliffe e.2 s.2,
   pbias e.1 s.1, pbias e.2 s.2]

/-! ## Lemmas about the threshold search -/

lemma countAbove_le_length (d : List ℚ) (t : ℚ) : countAbove d t ≤ d.length :=
  List.length_filter_le _ _

lemma thresholdLoop_le (d : List ℚ) (m : Nat) :
    ∀ (f : Nat) (t : ℚ), thresholdLoop d m f t ≤ t := by
  intro f
  induction f with
  | zero => intro t; exact le_refl t
  | succ f ih =>
      intro t
      simp only [thresholdLoop]
      split
      · calc thresholdLoop d m f (t - 1 / 20) ≤ t - 1 / 20 := ih _
          _ ≤ t := by linarith
      · exact le_refl t

lemma thresholdLoop_stop (d : List ℚ) (m : Nat) (f : Nat) (t : ℚ)
    (h : ¬ countAbove d t < m) : thresholdLoop d m f t = t := by
  cases f with
  | zero => rfl
  | succ f =>
      simp only [thresholdLoop]
      rw [if_neg]
      intro hc
      exact h hc.1

lemma thresholdLoop_step (d : List ℚ) (m : Nat) (f : Nat) (t : ℚ)
    (h1 : countAbove d t < m) (h2 : (-2 : ℚ) < t) :
    thresholdLoop d m (f + 1) t = thresholdLoop d m f (t - 1 / 20) := by
  simp only [thresholdLoop]
  rw [if_pos ⟨h1, h2⟩]

lemma thresholdLoop_floor (d : List ℚ) (m : Nat) :
    ∀ (f j : Nat), j ≤ 54 → 54 ≤ f + j →
      countAbove d (thresholdLoop d m f (7 / 10 - (j : ℚ) / 20)) < m →
      thresholdLoop d m f (7 / 10 - (j : ℚ) / 20) = -2 := by
  intro f
  induction f with
  | zero =>
      intro j hj hf _
      have hj54 : j = 54 := by omega
      subst hj54
      show (7 : ℚ) / 10 - (54 : ℚ) / 20 = -2
      norm_num
  | succ f ih =>
      intro j hj hf hc
      by_cases g : countAbove d (7 / 10 - (j : ℚ) / 20) < m ∧
          (-2 : ℚ) < 7 / 10 - (j : ℚ) / 20
      · have hj54 : j < 54 := by
          by_contra hcon
          have hj' : j = 54 := by omega
          subst hj'
          have hg := g.2
          norm_num at hg
        have harith : (7 : ℚ) / 10 - (j : ℚ) / 20 - 1 / 20
            = 7 / 10 - ((j + 1 : Nat) : ℚ) / 20 := by
          push_cast
          ring
        rw [thresholdLoop_step d m f _ g.1 g.2, harith] at hc ⊢
        exact ih (j + 1) (by omega) (by omega) hc
      · have hstop : thresholdLoop d m (f + 1) (7 / 10 - (j : ℚ) / 20)
            = 7 / 10 - (j : ℚ) / 20 := by
          simp only [thresholdLoop]
          rw [if_neg g]
        rw [hstop] at hc ⊢
        have hub : ¬ (-2 : ℚ) < 7 / 10 - (j : ℚ) / 20 := fun hlt => g ⟨hc, hlt⟩
        push_neg at hub
        have hjq : (j : ℚ) ≤ 54 := by exact_mod_cast hj
        have hlb : (-2 : ℚ) ≤ 7 / 10 - (j : ℚ) / 20 := by linarith
        linarith

lemma thresholdLoop_mono (d : List ℚ) (m1 m2 : Nat) (h : m1 ≤ m2) :
    ∀ (f : Nat) (t : ℚ), thresholdLoop d m2 f t ≤ thresholdLoop d m1 f t := by
  intro f
  induction f with
  | zero => intro t; exact le_refl _
  | succ f ih =>
      intro t
      by_cases g1 : countAbove d t < m1 ∧ (-2 : ℚ) < t
      · rw [thresholdLoop_step d m1 f t g1.1 g1.2,
            thresholdLoop_step d m2 f t (lt_of_lt_of_le g1.1 h) g1.2]
        exact ih _
      · have h1 : thresholdLoop d m1 (f + 1) t = t := by
          simp only [thresholdLoop]
          rw [if_neg g1]
        rw [h1]
        exact thresholdLoop_le d m2 (f + 1) t

/-! ## C5 -/

/-- C5 (counterexample): for the table with the single value `0.9`,
`min_accepted = 1` returns threshold `0.7` while `min_accepted = 2`
runs to the floor `-2`: the threshold for the smaller minimum count is
**greater**, so the claimed direction of monotonicity
(`m1 < m2 → threshold(m1) ≤ threshold(m2)`) is false. -/
theorem threshold_monotone_counterexample :
    ¬ (calculate_threshold [(9 : ℚ) / 10] 1).1
        ≤ (calculate_threshold [(9 : ℚ) / 10] 2).1 := by
  have e1 : (calculate_threshold [(9 : ℚ) / 10] 1).1 = 7 / 10 := by
    show thresholdLoop [(9 : ℚ) / 10] 1 100 (7 / 10) = 7 / 10
    exact thresholdLoop_stop _ _ _ _ (by norm_num [countAbove, List.filter])
  have e2 : (calculate_threshold [(9 : ℚ) / 10] 2).1 = -2 := by
    show thresholdLoop [(9 : ℚ) / 10] 2 100 (7 / 10) = -2
    have h0 : ((7 : ℚ) / 10 - ((0 : Nat) : ℚ) / 20) = 7 / 10 := by norm_num
    have hf := thresholdLoop_floor [(9 : ℚ) / 10] 2 100 0 (by omega) (by omega)
    rw [h0] at hf
    refine hf ?_
    have := countAbove_le_length [(9 : ℚ) / 10]
      (thresholdLoop [(9 : ℚ) / 10] 2 100 (7 / 10))
    simp at this
    omega
  rw [e1, e2]
  norm_num

/-- C5 (amended): the threshold search is **antitone** in the minimum
count: for `m1 < m2`, the threshold returned for `min_accepted = m2` is
never greater than the threshold returned for `min_accepted = m1`
(decreasing `min_accepted` never decreases the returned threshold). -/
theorem threshold_antitone_min_accepted (d : List ℚ) (m1 m2 : Nat) (h : m1 < m2) :
    (calculate_threshold d m2).1 ≤ (calculate_threshold d m1).1 :=
  thresholdLoop_mono d m1 m2 (le_of_lt h) 100 (7 / 10)

/-- Witness for C5 (amended) at `d = [0.9]`, `m1 = 1`, `m2 = 2`. -/
theorem threshold_antitone_min_accepted_witness :
    (1 : Nat) < 2 ∧
    (calculate_threshold [(9 : ℚ) / 10] 2).1
      ≤ (calculate_threshold [(9 : ℚ) / 10] 1).1 :=
  ⟨by norm_num, threshold_antitone_min_accepted [(9 : ℚ) / 10] 1 2 (by norm_num)⟩

/-! ## Lemmas about the float threshold search, and C1, C3, C4 -/

set_option maxRecDepth 8000

lemma seqL_chain :
    ∀ j, j < 54 → floatSub (seqL.getD j 0) f0_05 = seqL.getD (j + 1) 0 := by
  decide

lemma subIterF_eq_seqL : ∀ j, j ≤ 54 → subIterF j = seqL.getD j 0 := by
  intro j
  induction j with
  | zero => intro _; decide
  | succ j ih =>
      intro hj
      have hj' : j < 54 := by omega
      show floatSub (subIterF j) f0_05 = seqL.getD (j + 1) 0
      rw [ih (by omega), seqL_chain j hj']

lemma subIterF_gt_floor : ∀ j, j < 54 → fneg2 < subIterF j := by
  have h : ∀ j, j < 54 → fneg2 < seqL.getD j 0 := by decide
  intro j hj
  rw [subIterF_eq_seqL j (by omega)]
  exact h j hj

lemma subIterF_54_le_floor : ¬ fneg2 < subIterF 54 := by
  rw [subIterF_eq_seqL 54 (le_refl 54)]
  decide

lemma thresholdLoopF_step (d : List ℤ) (m : Nat) (f : Nat) (t : ℤ)
    (h1 : countAboveF d t < m) (h2 : fneg2 < t) :
    thresholdLoopF d m (f + 1) t = thresholdLoopF d m f (floatSub t f0_05) := by
  simp only [thresholdLoopF]
  rw [if_pos ⟨h1, h2⟩]

lemma thresholdLoopF_sub (d : List ℤ) (m : Nat) :
    ∀ (f j : Nat), j ≤ 54 →
      ∃ k : Nat, j ≤ k ∧ k ≤ 54 ∧
        thresholdLoopF d m f (subIterF j) = subIterF k := by
  intro f
  induction f with
  | zero => intro j hj; exact ⟨j, le_refl j, hj, rfl⟩
  | succ f ih =>
      intro j hj
      by_cases g : countAboveF d (subIterF j) < m ∧ fneg2 < subIterF j
      · have hj54 : j < 54 := by
          by_contra hcon
          have hj' : j = 54 := by omega
          subst hj'
          exact subIterF_54_le_floor g.2
        rw [thresholdLoopF_step d m f _ g.1 g.2]
        obtain ⟨k, hk1, hk2, hk3⟩ := ih (j + 1) (by omega)
        exact ⟨k, by omega, hk2, hk3⟩
      · have hstop : thresholdLoopF d m (f + 1) (subIterF j) = subIterF j := by
          simp only [thresholdLoopF]
          rw [if_neg g]
        exact ⟨j, le_refl j, hj, hstop⟩

lemma thresholdLoopF_floor (d : List ℤ) (m : Nat) :
    ∀ (f j : Nat), j ≤ 54 → 54 ≤ f + j →
      countAboveF d (thresholdLoopF d m f (subIterF j)) < m →
      thresholdLoopF d m f (subIterF j) = subIterF 54 := by
  intro f
  induction f with
  | zero =>
      intro j hj hf _
      have hj' : j = 54 := by omega
      subst hj'
      rfl
  | succ f ih =>
      intro j hj hf hc
      by_cases g : countAboveF d (subIterF j) < m ∧ fneg2 < subIterF j
      · have hj54 : j < 54 := by
          by_contra hcon
          have hj' : j = 54 := by omega
          subst hj'
          exact subIterF_54_le_floor g.2
        rw [thresholdLoopF_step d m f _ g.1 g.2] at hc ⊢
        exact ih (j + 1) (by omega) (by omega) hc
      · have hstop : thresholdLoopF d m (f + 1) (subIterF j) = subIterF j := by
          simp only [thresholdLoopF]
          rw [if_neg g]
        rw [hstop] at hc ⊢
        have hnl : ¬ fneg2 < subIterF j := fun hlt => g ⟨hc, hlt⟩
        have hj' : j = 54 := by
          by_contra hcon
          exact hnl (subIterF_gt_floor j (by omega))
        rw [hj']

/-- C1 (counterexample): for the table with `like1 = [0.8, 0.7]` and
`n_min = 1` the loop exits at the start value without any float
subtraction (one run is already above `0.7`), returning
`threshold = 0.7` with `accepted_count = 1`, but two rows have
`like1 ≥ 0.7`: the returned count does **not** equal the count of rows
with objective `≥` the threshold, because the code counts with strict
`>` and excludes ties.  The real-code trace is identical, since no
arithmetic on the threshold happens at this input. -/
theorem calculate_thresholdF_ties_counterexample :
    (calculate_thresholdF [f0_8, f0_7] 1).2
      ≠ specCountAtLeastF [f0_8, f0_7] (calculate_thresholdF [f0_8, f0_7] 1).1 := by
  decide

/-- C1 (amended): the `accepted_count` returned by the float threshold
search equals the exact count of rows whose primary objective is
**strictly greater** than the returned threshold; rows whose objective
is exactly equal to the threshold are excluded. -/
theorem calculate_thresholdF_count_strict (d : List ℤ) (m : Nat) :
    (calculate_thresholdF d m).2 = countAboveF d (calculate_thresholdF d m).1 := rfl

/-- C3 (counterexample): on the empty column the floor terminates the
search and the returned (float) threshold is not `0.7 - k·0.05` for
any natural `k` — in particular not exactly `-2.0`: it is the
accumulated value `-2.0000000000000013`.  (A double `t` equals the
real number `0.7 - k·0.05 = (14-k)/20` iff `20·t = (14-k)·2^1074` in
units of `2^-1074`.) -/
theorem calculate_thresholdF_step_counterexample :
    ¬ ∃ k : Nat, 20 * (calculate_thresholdF ([] : List ℤ) 30).1
        = (14 - (k : ℤ)) * ((2 ^ 1074 : ℕ) : ℤ) := by
  have hval : (calculate_thresholdF ([] : List ℤ) 30).1
      = -4503599627370499 * ((2 ^ 1023 : ℕ) : ℤ) := by decide
  rintro ⟨k, hk⟩
  rw [hval] at hk
  push_cast at hk
  norm_num at hk
  omega

/-- C3 (amended): the float threshold search starts at the double `0.7`
and subtracts the double `0.05` (IEEE subtraction) while the count of
passing runs is below `n_min` and the threshold is above `-2`;
consequently the returned threshold is the `k`-fold IEEE iterate of the
subtraction for some `k ≤ 54`, and when the search was terminated by
the floor (the final count is still below `n_min`) it is the 54-fold
iterate, whose exact value is `-4503599627370499 · 2^-51
= -2.0000000000000013` — slightly below, but not equal to, `-2.0`. -/
theorem calculate_thresholdF_step_form (d : List ℤ) (m : Nat) :
    (∃ k : Nat, k ≤ 54 ∧ (calculate_thresholdF d m).1 = subIterF k) ∧
    ((calculate_thresholdF d m).2 < m →
      (calculate_thresholdF d m).1 = subIterF 54) ∧
    subIterF 54 = -4503599627370499 * ((2 ^ 1023 : ℕ) : ℤ) := by
  refine ⟨?_, ?_, ?_⟩
  · obtain ⟨k, _, hk2, hk3⟩ := thresholdLoopF_sub d m 100 0 (by omega)
    exact ⟨k, hk2, hk3⟩
  · intro h
    exact thresholdLoopF_floor d m 100 0 (by omega) (by omega) h
  · rw [subIterF_eq_seqL 54 (le_refl 54)]
    decide

/-- Witness for C3 (amended) at the empty column with `n_min = 30`:
the count stays below the minimum, so the floor case applies. -/
theorem calculate_thresholdF_step_form_witness :
    (calculate_thresholdF ([] : List ℤ) 30).1 = subIterF 54 :=
  (calculate_thresholdF_step_form [] 30).2.1
    (by norm_num [calculate_thresholdF, countAboveF])

/-- C4 (counterexample): on an empty table the float threshold search
does not return exactly `-2.0`. -/
theorem calculate_thresholdF_empty_counterexample :
    (calculate_thresholdF ([] : List ℤ) 30).1 ≠ fneg2 := by decide

/-- C4 (amended): on an empty table the float threshold search returns
an accepted count of `0` together with the floor-exit threshold
`-4503599627370499 · 2^-51 = -2.0000000000000013` (the 54-fold IEEE
iterate, slightly below `-2.0`), as a legitimate degenerate result and
not an error. -/
theorem calculate_thresholdF_empty :
    calculate_thresholdF ([] : List ℤ) 30
      = (-4503599627370499 * ((2 ^ 1023 : ℕ) : ℤ), 0) := by decide

/-! ## C2, C6, C10: pruning -/

/-- A sample row for concrete instances. -/
def wRow : Row := ⟨1, [], []⟩

/-- A sample one-row table. -/
def wTable : Table := ⟨["a"], [wRow]⟩

/-- A `BaseResult` state whose result file name does **not** contain
`'.h5'`, as happens when a caller passes an arbitrary `result_file`. -/
def wStateNoH5 : ResultState :=
  { name := "model"
    result_filename := "results"
    files := fun fn => if fn = "results" then some wTable else none
    data := wTable
    threshold := 0
    n := 1 }

/-- A `BaseResult` state with the usual `'<name>.h5'` result file. -/
def wStateH5 : ResultState :=
  { name := "model"
    result_filename := "model.h5"
    files := fun fn => if fn = "model.h5" then some wTable else none
    data := wTable
    threshold := 0
    n := 1 }

/-- Helper for the success regime of pruning: whenever the derived
path differs from the original path, the original file is left
untouched, the new table holds exactly the rows selected by the
predicate, in their original order, with identical schema, and an
empty selection still yields a valid, empty, schema-correct table. -/
lemma prune_rewrite_of_ne (s : ResultState) (cond : Row → Bool)
    (h : pyReplace s.result_filename ".h5" ".pruned.h5" ≠ s.result_filename) :
    (prune_results s cond).result_filename
        = pyReplace s.result_filename ".h5" ".pruned.h5" ∧
    (prune_results s cond).files s.result_filename = s.files s.result_filename ∧
    (prune_results s cond).files (prune_results s cond).result_filename
        = some ⟨s.data.par_names, s.data.rows.filter cond⟩ ∧
    (s.data.rows.filter cond = [] →
      (prune_results s cond).files (prune_results s cond).result_filename
        = some ⟨s.data.par_names, ([] : List Row)⟩) := by
  refine ⟨rfl, ?_, ?_, ?_⟩
  · show (if s.result_filename = pyReplace s.result_filename ".h5" ".pruned.h5"
        then some ⟨s.data.par_names, read_where s.data cond⟩
        else s.files s.result_filename) = s.files s.result_filename
    rw [if_neg (fun hh => h hh.symm)]
  · show (if pyReplace s.result_filename ".h5" ".pruned.h5"
          = pyReplace s.result_filename ".h5" ".pruned.h5"
        then some ⟨s.data.par_names, read_where s.data cond⟩
        else s.files (pyReplace s.result_filename ".h5" ".pruned.h5"))
      = some ⟨s.data.par_names, s.data.rows.filter cond⟩
    rw [if_pos rfl]
    rfl
  · intro he
    show (if pyReplace s.result_filename ".h5" ".pruned.h5"
          = pyReplace s.result_filename ".h5" ".pruned.h5"
        then some ⟨s.data.par_names, read_where s.data cond⟩
        else s.files (pyReplace s.result_filename ".h5" ".pruned.h5"))
      = some ⟨s.data.par_names, ([] : List Row)⟩
    rw [if_pos rfl]
    show some (⟨s.data.par_names, s.data.rows.filter cond⟩ : Table)
      = some ⟨s.data.par_names, ([] : List Row)⟩
    rw [he]

/-- C2 (counterexample): when the original filename contains no
`'.h5'` (here `"results"`, a caller-supplied `result_file`),
`str.replace` leaves the name unchanged, so `prune_results` tries to
reopen the still-open result file in write mode and PyTables raises:
the prune **fails** instead of producing a (here empty, but in general
pruned) schema-correct table as the claim asserts. -/
theorem prune_results_checked_fails_counterexample :
    prune_results_checked wStateNoH5 (fun r => decide (r.like1 = 0))
      = .error .fileAlreadyOpen := by
  unfold prune_results_checked
  rw [if_pos (by decide)]

/-- C2 (amended): the new path is obtained by replacing **every**
occurrence of `'.h5'` in the original filename by `'.pruned.h5'` (for
the usual `'<name>.h5'` filenames this is the suffix replacement).
When the derived path equals the original path (a filename without
`'.h5'`), the prune fails with PyTables' already-opened error before
anything is written — the original file is preserved but no pruned
table is produced.  Otherwise the prune succeeds, the original file is
left untouched, and the new table at the derived path holds exactly
the rows selected by the predicate, in their original order, with
identical schema; an empty selection still yields a valid, empty,
schema-correct table. -/
theorem prune_results_checked_rewrite (s : ResultState) (cond : Row → Bool) :
    (pyReplace s.result_filename ".h5" ".pruned.h5" = s.result_filename →
      prune_results_checked s cond = .error .fileAlreadyOpen) ∧
    (pyReplace s.result_filename ".h5" ".pruned.h5" ≠ s.result_filename →
      prune_results_checked s cond = .ok (prune_results s cond) ∧
      (prune_results s cond).result_filename
          = pyReplace s.result_filename ".h5" ".pruned.h5" ∧
      (prune_results s cond).files s.result_filename
          = s.files s.result_filename ∧
      (prune_results s cond).files (prune_results s cond).result_filename
          = some ⟨s.data.par_names, s.data.rows.filter cond⟩ ∧
      (s.data.rows.filter cond = [] →
        (prune_results s cond).files (prune_results s cond).result_filename
          = some ⟨s.data.par_names, ([] : List Row)⟩)) := by
  constructor
  · intro h
    unfold prune_results_checked
    rw [if_pos h]
  · intro h
    refine ⟨?_, prune_rewrite_of_ne s cond h⟩
    unfold prune_results_checked
    rw [if_neg h]

/-- Witness for C2 (amended) at a state with result file
`"model.h5"` and the predicate keeping no row. -/
theorem prune_results_checked_rewrite_witness :
    pyReplace wStateH5.result_filename ".h5" ".pruned.h5" ≠ wStateH5.result_filename ∧
    (prune_results_checked wStateH5 (fun r => decide (r.like1 = 0))
        = .ok (prune_results wStateH5 (fun r => decide (r.like1 = 0))) ∧
      (prune_results wStateH5 (fun r => decide (r.like1 = 0))).result_filename
        = pyReplace wStateH5.result_filename ".h5" ".pruned.h5" ∧
      (prune_results wStateH5 (fun r => decide (r.like1 = 0))).files
          wStateH5.result_filename = wStateH5.files wStateH5.result_filename ∧
      (prune_results wStateH5 (fun r => decide (r.like1 = 0))).files
          (prune_results wStateH5 (fun r => decide (r.like1 = 0))).result_filename
        = some ⟨wStateH5.data.par_names,
            wStateH5.data.rows.filter (fun r => decide (r.like1 = 0))⟩ ∧
      (wStateH5.data.rows.filter (fun r => decide (r.like1 = 0)) = [] →
        (prune_results wStateH5 (fun r => decide (r.like1 = 0))).files
            (prune_results wStateH5 (fun r => decide (r.like1 = 0))).result_filename
          = some ⟨wStateH5.data.par_names, ([] : List Row)⟩)) :=
  ⟨by decide,
    (prune_results_checked_rewrite wStateH5 (fun r => decide (r.like1 = 0))).2 (by decide)⟩

/-- C6: pruning is idempotent on its output: pruning an
already-pruned table again with the same predicate leaves the table
contents (hence also the row count and the schema) unchanged. -/
theorem prune_results_idempotent (s : ResultState) (cond : Row → Bool) :
    (prune_results (prune_results s cond) cond).data
        = (prune_results s cond).data ∧
    (prune_results (prune_results s cond) cond).data.rows.length
        = (prune_results s cond).data.rows.length := by
  have hdata : (prune_results (prune_results s cond) cond).data
      = (prune_results s cond).data := by
    show (⟨s.data.par_names, read_where ⟨s.data.par_names, read_where s.data cond⟩ cond⟩ : Table)
      = ⟨s.data.par_names, read_where s.data cond⟩
    simp only [read_where, List.filter_filter, Bool.and_self]
  exact ⟨hdata, by rw [hdata]⟩

/-- C10: after `prune_results`, the in-memory `threshold` and `n`
attributes still hold the values computed by `calculate_threshold` from
the pre-prune table at construction time — they are not recomputed from
the pruned table; only the result filename and the open table are
replaced (and the name is kept). -/
theorem prune_results_preserves_threshold_fields (name fn : String)
    (files : String → Option Table) (tab : Table) (cond : Row → Bool)
    (h : files fn = some tab) :
    ∃ s : ResultState, BaseResult_init name fn files = some s ∧
      (prune_results s cond).threshold = (calculate_threshold (col_like1 tab)).1 ∧
      (prune_results s cond).n = (calculate_threshold (col_like1 tab)).2 ∧
      (prune_results s cond).name = name ∧
      (prune_results s cond).data = ⟨tab.par_names, tab.rows.filter cond⟩ ∧
      (prune_results s cond).result_filename = pyReplace fn ".h5" ".pruned.h5" := by
  refine ⟨{ name := name
            result_filename := fn
            files := files
            data := tab
            threshold := (calculate_threshold (col_like1 tab)).1
            n := (calculate_threshold (col_like1 tab)).2 }, ?_, rfl, rfl, rfl, rfl, rfl⟩
  simp [BaseResult_init, h]

/-- Witness for C10 at a concrete one-row file system. -/
theorem prune_results_preserves_threshold_fields_witness :
    ∃ s : ResultState,
      BaseResult_init "model" "model.h5"
          (fun fn => if fn = "model.h5" then some wTable else none) = some s ∧
      (prune_results s (fun r => decide (r.like1 = 0))).threshold
          = (calculate_threshold (col_like1 wTable)).1 ∧
      (prune_results s (fun r => decide (r.like1 = 0))).n
          = (calculate_threshold (col_like1 wTable)).2 ∧
      (prune_results s (fun r => decide (r.like1 = 0))).name = "model" ∧
      (prune_results s (fun r => decide (r.like1 = 0))).data
          = ⟨wTable.par_names, wTable.rows.filter (fun r => decide (r.like1 = 0))⟩ ∧
      (prune_results s (fun r => decide (r.like1 = 0))).result_filename
          = pyReplace "model.h5" ".h5" ".pruned.h5" :=
  prune_results_preserves_threshold_fields "model" "model.h5"
    (fun fn => if fn = "model.h5" then some wTable else none) wTable
    (fun r => decide (r.like1 = 0)) (by decide)

/-! ## C8: dotty plot, local recovery of density-estimation failure -/

/-- C8: when the behavioral values of parameter `i` are degenerate (all
equal, e.g. a near-constant parameter, or no behavioral run at all),
`gaussian_kde` fails; the failure is caught locally by the
`try…except…pass` block, so the result merely has no density curve for
that parameter (`none`), while the caption still reports the stored
accepted count `n` and `threshold` unchanged. -/
theorem dotty_density_failure_local (s : ResultState) (i : Nat)
    (hi : i < s.data.par_names.length)
    (hconst : ∀ x ∈ behavioralParams s i, ∀ y ∈ behavioralParams s i, x = y) :
    (dotty_plot s).curves[i]? = some none ∧
    (dotty_plot s).caption_n = s.n ∧
    (dotty_plot s).caption_threshold = s.threshold := by
  refine ⟨?_, rfl, rfl⟩
  have hkde : (gaussian_kde (behavioralParams s i)).toOption = none := by
    cases hp : behavioralParams s i with
    | nil => simp [gaussian_kde, Except.toOption]
    | cons x xs =>
        have hall : xs.all (fun y => y == x) = true := by
          rw [List.all_eq_true]
          intro y hy
          have hxy : y = x := hconst y (by rw [hp]; exact List.mem_cons_of_mem _ hy)
            x (by rw [hp]; exact List.mem_cons_self _ _)
          simp [hxy]
        simp [gaussian_kde, hall, Except.toOption]
  show ((List.range s.data.par_names.length).map (fun j =>
      (gaussian_kde (behavioralParams s j)).toOption))[i]? = some none
  rw [List.getElem?_map, List.getElem?_range hi]
  simp [hkde]

/-- A state for the C8 witness: one parameter column, two behavioral
runs (`like1 = 1, 2 > threshold = 0`), parameter constant at `5`. -/
def wDottyState : ResultState :=
  { name := "model"
    result_filename := "model.h5"
    files := fun _ => none
    data := ⟨["v"], [⟨1, [5], []⟩, ⟨2, [5], []⟩]⟩
    threshold := 0
    n := 2 }

/-- Witness for C8: a single calibrated parameter with constant value
over the behavioral runs. -/
theorem dotty_density_failure_local_witness :
    0 < wDottyState.data.par_names.length ∧
    ((dotty_plot wDottyState).curves[0]? = some none ∧
      (dotty_plot wDottyState).caption_n = wDottyState.n ∧
      (dotty_plot wDottyState).caption_threshold = wDottyState.threshold) :=
  ⟨by decide, dotty_density_failure_local wDottyState 0 (by decide) (by decide)⟩

/-! ## C9: timeseries plot, empty behavioral selection -/

lemma applyMask_all_false {α : Type} (mask : List Bool) (col : List α)
    (h : ∀ b ∈ mask, b = false) : applyMask mask col = [] := by
  unfold applyMask
  have hfil : (mask.zip col).filter (fun p => p.1) = [] := by
    rw [List.filter_eq_nil_iff]
    rintro ⟨b, c⟩ hp
    have hb : b = false := h b (List.of_mem_zip hp).1
    simp [hb]
  rw [hfil]
  rfl

/-- C9: whenever the table is non-empty (so `np.argmax` succeeds) but
no run passes the stored threshold, the percentile-band computation of
`timeseries_plot` fails with the insufficient-data error (NumPy's
percentile of an empty selection raises) — it never returns a plot with
a zeroed or empty band. -/
theorem timeseries_plot_insufficient_data (s : ResultState)
    (hne : s.data.rows ≠ [])
    (hnone : ∀ r ∈ s.data.rows, ¬ s.threshold < r.like1) :
    timeseries_plot s = .error .insufficientData := by
  obtain ⟨r0, rs, hrows⟩ : ∃ r0 rs, s.data.rows = r0 :: rs := by
    cases h : s.data.rows with
    | nil => exact absurd h hne
    | cons a l => exact ⟨a, l, rfl⟩
  have hmask : ∀ b ∈ behavioralMask s, b = false := by
    intro b hb
    simp only [behavioralMask, col_like1, List.map_map, List.mem_map] at hb
    obtain ⟨r, hr, hbr⟩ := hb
    rw [← hbr]
    simp only [Function.comp_apply, decide_eq_false_iff_not]
    exact hnone r hr
  have hdata : applyMask (behavioralMask s) (s.data.rows.map Row.simulation) = [] :=
    applyMask_all_false _ _ hmask
  have hargmax : argmax (col_like1 s.data)
      = some (argmaxAux (rs.map Row.like1) 1 0 r0.like1) := by
    rw [show col_like1 s.data = r0.like1 :: rs.map Row.like1 by
      simp [col_like1, hrows]]
    rfl
  unfold timeseries_plot
  simp only [hargmax, hdata]
  rfl

/-- A state for the C9 witness: one run whose objective does not exceed
the threshold. -/
def wTsState : ResultState :=
  { name := "model"
    result_filename := "model.h5"
    files := fun _ => none
    data := ⟨[], [⟨0, [], [1]⟩]⟩
    threshold := 0
    n := 0 }

/-- Witness for C9: a non-empty table with an empty behavioral set. -/
theorem timeseries_plot_insufficient_data_witness :
    wTsState.data.rows ≠ [] ∧
    timeseries_plot wTsState = .error .insufficientData :=
  ⟨by decide, timeseries_plot_insufficient_data wTsState (by decide) (by decide)⟩

/-! ## C7: period splitting -/

/-- C7: for valid boundary years (the calibration offset is
non-negative, at most the validation offset, which is at most the
series length) the calibration slice is `series[offset_c:offset_v]`,
the validation slice is `series[offset_v:]`, and their lengths add up
to `len(series) - offset(calibration_start_year)`. -/
theorem split_length_roundtrip (series : List ℚ) (beginOrd : ℤ)
    (cy vy : Nat)
    (h0 : 0 ≤ getindex beginOrd cy)
    (hcv : getindex beginOrd cy ≤ getindex beginOrd vy)
    (hvs : getindex beginOrd vy ≤ (series.length : ℤ)) :
    (split series beginOrd cy vy).1
        = pySlice series (getindex beginOrd cy) (getindex beginOrd vy) ∧
    (split series beginOrd cy vy).2
        = pySliceFrom series (getindex beginOrd vy) ∧
    (split series beginOrd cy vy).1.length + (split series beginOrd cy vy).2.length
        = series.length - (getindex beginOrd cy).toNat := by
  refine ⟨rfl, rfl, ?_⟩
  have h0v : 0 ≤ getindex beginOrd vy := le_trans h0 hcv
  simp only [split, pySlice, pySliceFrom, pyBound,
    if_neg (not_lt.mpr h0), if_neg (not_lt.mpr h0v),
    List.length_drop, List.length_take]
  omega

/-- Witness for C7: `begin` is January 1 of 2000 (ordinal 730120) and
both boundary years are 2000, so both offsets are 0. -/
theorem split_length_roundtrip_witness :
    0 ≤ getindex 730120 2000 ∧
    getindex 730120 2000 ≤ getindex 730120 2000 ∧
    getindex 730120 2000 ≤ (([(1 : ℚ), 2].length : Nat) : ℤ) ∧
    (split [(1 : ℚ), 2] 730120 2000 2000).1.length
        + (split [(1 : ℚ), 2] 730120 2000 2000).2.length
      = [(1 : ℚ), 2].length - (getindex 730120 2000).toNat :=
  ⟨by decide, by decide, by decide,
    (split_length_roundtrip [(1 : ℚ), 2] 730120 2000 2000
      (by decide) (by decide) (by decide)).2.2⟩

end CmfLumped
